import Mathlib

/-!
Verification of the video-sprite-generator pipeline (`app.py`).

The Python source is shallowly embedded: float arithmetic is modelled by
exact rationals (`ℚ`), Python's `//`, `%` and `int(...)` by explicit
floor/truncation operations, strings by `List Char`, and the per-job
filesystem by a `Finset` of abstract file names.  External tool
invocations (download, ffprobe, per-frame ffmpeg extraction, tiling,
file writes) are modelled by an environment of outcomes, since the core
logic only branches on their success or failure.
-/

namespace SpriteGen

/-- Python float `//` (floor division) on exact rationals. -/
def pyFloorDiv (a b : ℚ) : ℚ := (⌊a / b⌋ : ℚ)

/-- Python float `%` on exact rationals: `a % b = a - b * (a // b)`. -/
def pyMod (a b : ℚ) : ℚ := a - b * (⌊a / b⌋ : ℚ)

/-- Python `int(...)` applied to a float value: truncation toward zero. -/
def pyInt (q : ℚ) : ℤ := if q < 0 then ⌈q⌉ else ⌊q⌋

/-- Configuration constant `THUMB_WIDTH = 160` (app.py line 25). -/
def THUMB_WIDTH : ℕ := 160

/-- Configuration constant `THUMB_HEIGHT = 90` (app.py line 26). -/
def THUMB_HEIGHT : ℕ := 90

/-- Configuration constant `THUMBS_PER_ROW = 10` (app.py line 27). -/
def THUMBS_PER_ROW : ℕ := 10

/-- Configuration constant `THUMBNAIL_INTERVAL = 5` (app.py line 33). -/
def THUMBNAIL_INTERVAL : ℚ := 5

/-- Number of requested frames, `math.ceil(duration / interval)`
(app.py line 96).  The sampling interval is kept as a parameter; the
program instantiates it with the configuration constant
`THUMBNAIL_INTERVAL`. -/
def num_thumbnails (duration interval : ℚ) : ℤ := ⌈duration / interval⌉

/-- Requested (clamped) seek timestamps of `generate_individual_thumbnails`
(app.py lines 99-104): for `i` in `range(num_thumbnails)` the timestamp is
`min(i * interval, duration - 0.1)`. -/
def requested_timestamps (duration interval : ℚ) : List ℚ :=
  (List.range (num_thumbnails duration interval).toNat).map
    (fun i : ℕ => min ((i : ℚ) * interval) (duration - 1/10))

/-- Hours component of the ffmpeg seek string,
`int(actual_timestamp // 3600)` (app.py line 106). -/
def seek_hours (t : ℚ) : ℤ := pyInt (pyFloorDiv t 3600)

/-- Minutes component, `int((actual_timestamp % 3600) // 60)`
(app.py line 107). -/
def seek_minutes (t : ℚ) : ℤ := pyInt (pyFloorDiv (pyMod t 3600) 60)

/-- Seconds component, `int(actual_timestamp % 60)` (app.py line 108). -/
def seek_seconds (t : ℚ) : ℤ := pyInt (pyMod t 60)

/-- Milliseconds component,
`int((actual_timestamp - math.floor(actual_timestamp)) * 1000)`
(app.py line 109). -/
def seek_millis (t : ℚ) : ℤ := pyInt ((t - (⌊t⌋ : ℚ)) * 1000)

/-- Decimal digit character, `'0' + n` for `n ≤ 9`. -/
def digitChar (n : ℕ) : Char := Char.ofNat (48 + n)

/-- Decimal digit characters of a natural number, most significant
first, with explicit fuel so that concrete values reduce. -/
def natDigitsAux : ℕ → ℕ → List Char
  | 0, _ => []
  | fuel + 1, n =>
    if n < 10 then [digitChar n]
    else natDigitsAux fuel (n / 10) ++ [digitChar (n % 10)]

/-- Decimal representation of a natural number as characters. -/
def natDigits (n : ℕ) : List Char := natDigitsAux (n + 1) n

/-- Characters left-padded with `'0'` to width `w` (unchanged when
already at least `w` long). -/
def leftPadZeros (w : ℕ) (s : List Char) : List Char :=
  List.replicate (w - s.length) '0' ++ s

/-- Python zero-padded integer format `f"{n:0wd}"`: for a negative
value the sign is written first and counts toward the width. -/
def zeroPadInt (w : ℕ) (n : ℤ) : List Char :=
  if n < 0 then '-' :: leftPadZeros (w - 1) (natDigits n.natAbs)
  else leftPadZeros w (natDigits n.toNat)

/-- The ffmpeg seek string
`f"{hours:02}:{minutes:02}:{seconds:02}.{milliseconds:03}"`
(app.py line 110), as its character sequence. -/
def seek_str (t : ℚ) : List Char :=
  zeroPadInt 2 (seek_hours t) ++
    ':' :: (zeroPadInt 2 (seek_minutes t) ++
      ':' :: (zeroPadInt 2 (seek_seconds t) ++
        '.' :: zeroPadInt 3 (seek_millis t)))

/-- Test for position `i` of `l` holding a decimal digit character. -/
def isDigitAt (l : List Char) (i : ℕ) : Bool :=
  match l.get? i with
  | some c => c.isDigit
  | none => false

/-- Validity of a zero-padded `HH:MM:SS.mmm` timestamp: twelve
characters of shape `dd:dd:dd.ddd`. -/
def isHHMMSSmmm (l : List Char) : Bool :=
  (l.length == 12) && isDigitAt l 0 && isDigitAt l 1 &&
    (l.get? 2 == some ':') && isDigitAt l 3 && isDigitAt l 4 &&
    (l.get? 5 == some ':') && isDigitAt l 6 && isDigitAt l 7 &&
    (l.get? 8 == some '.') && isDigitAt l 9 && isDigitAt l 10 &&
    isDigitAt l 11

/-- Cue entry of the VTT file built by `create_vtt_file`: start and end
seconds and the pixel offsets of the referenced sprite sub-rectangle. -/
structure VttCue where
  startSec : ℚ
  endSec : ℚ
  x : ℕ
  y : ℕ
deriving DecidableEq

/-- Cue entries written by `create_vtt_file` (app.py lines 217-248): for
`i` in `range(num_thumbnails)`, `start_time_sec = i * interval`,
`end_time_sec = min(start_time_sec + interval, 86399.999)` — only the
end time is capped — then `col = i % THUMBS_PER_ROW`,
`row = i // THUMBS_PER_ROW`, `x = col * THUMB_WIDTH`,
`y = row * THUMB_HEIGHT`.  The column count is kept as a parameter; the
program instantiates it with `THUMBS_PER_ROW`. -/
def vtt_cues (num : ℕ) (interval : ℚ) (columns : ℕ) : List VttCue :=
  (List.range num).map (fun i : ℕ =>
    { startSec := (i : ℚ) * interval
      endSec := min ((i : ℚ) * interval + interval) (86399999/1000)
      x := (i % columns) * THUMB_WIDTH
      y := (i / columns) * THUMB_HEIGHT })

/-- Number of sprite grid rows computed by `create_sprite_image`
(app.py line 158): `max(1, math.ceil(num_thumbnails / THUMBS_PER_ROW))`,
with the column count as a parameter. -/
def num_rows (num columns : ℕ) : ℤ :=
  max 1 ⌈(num : ℚ) / (columns : ℚ)⌉

/-- Modelled from the spec: the external tiling capability (ffmpeg's
`tile=CxR` filter invoked at app.py line 177; the tool itself is out of
scope) places its `j`-th input image row-major, at column `j % C` and
row `j / C` of the grid. -/
def tile_pos (columns j : ℕ) : ℕ × ℕ := (j % columns, j / columns)

/-- Python `f"{i:04d}"` (app.py line 112): for `i < 10000` the four
zero-padded decimal digits of `i`; for larger `i` the format writes the
full decimal representation unpadded. -/
def zeroPad4 (n : ℕ) : List Char :=
  if n < 10000 then
    [digitChar (n / 1000), digitChar (n / 100 % 10),
      digitChar (n / 10 % 10), digitChar (n % 10)]
  else natDigits n

/-- Thumbnail file name `f"thumb_{i:04d}.jpg"` (app.py line 112). -/
def thumb_filename (i : ℕ) : List Char :=
  "thumb_".data ++ zeroPad4 i ++ ".jpg".data

/-- Thumbnail path `os.path.join(output_dir, thumb_filename)`
(app.py line 113). -/
def thumb_path (dir : List Char) (i : ℕ) : List Char :=
  dir ++ '/' :: thumb_filename i

/-- Lexicographic strict comparison of character sequences by code
point, as Python compares strings. -/
def charListLt : List Char → List Char → Bool
  | _, [] => false
  | [], _ :: _ => true
  | a :: as, b :: bs =>
    if a < b then true else if b < a then false else charListLt as bs

/-- Lexicographic (non-strict) comparison of character sequences. -/
def charListLe (a b : List Char) : Bool := !(charListLt b a)

/-- Order in which `create_sprite_image` feeds frame paths to the
tiling capability (app.py line 166): `sorted(thumbnail_paths)`, a
stable ascending sort by the lexicographic string order. -/
def composer_fed_order (paths : List (List Char)) : List (List Char) :=
  paths.insertionSort (fun a b => charListLe a b = true)

/-- Success of `create_sprite_image` (app.py lines 146-204): it returns
`False` immediately when given no frame paths (before touching the
filesystem), and otherwise succeeds exactly when the external tiling
invocation does. -/
def create_sprite_ok (paths : List (List Char)) (tilingOk : Bool) : Bool :=
  if paths.isEmpty then false else tilingOk

/-- Outcome of one external per-frame extraction (app.py lines 115-143):
`ok` — the tool succeeded and its output file is nonempty, so the path
is appended to `thumbnail_paths`; `emptyFile` — a file was written but
is empty, so the path is skipped while the file stays on disk; `fail` —
the tool raised or timed out and left no output file. -/
inductive ExtractOutcome
  | ok
  | emptyFile
  | fail
deriving DecidableEq

/-- Environment of external-effect outcomes for one run of the
`generate` route. -/
structure JobEnv where
  downloadOk : Bool
  probed : Option ℚ
  extract : ℕ → ExtractOutcome
  tilingOk : Bool
  vttWriteOk : Bool

/-- Abstract names for the files one job touches: the downloaded source
video (in `UPLOAD_FOLDER`), the per-frame thumbnails, the temporary
concat list, and the final sprite image and VTT file (in the job's
workspace directory). -/
inductive JobFile
  | video
  | thumb (i : ℕ)
  | concatList
  | sprite
  | vtt
deriving DecidableEq

/-- Terminal outcome of the `generate` route, one per distinct error
response (app.py lines 283, 287, 302, 307, 314) plus success. -/
inductive JobOutcome
  | downloadFailed
  | durationFailed
  | noThumbnails
  | spriteFailed
  | vttFailed
  | success
deriving DecidableEq

/-- Indices whose extraction produced a nonempty file: the
`thumbnail_paths` list returned by `generate_individual_thumbnails`
(app.py lines 95-144), in increasing index order. -/
def surviving_indices (env : JobEnv) (duration : ℚ) : List ℕ :=
  (List.range (num_thumbnails duration THUMBNAIL_INTERVAL).toNat).filter
    (fun i => decide (env.extract i = ExtractOutcome.ok))

/-- Indices whose extraction left a file on disk (nonempty or empty). -/
def created_indices (env : JobEnv) (duration : ℚ) : List ℕ :=
  (List.range (num_thumbnails duration THUMBNAIL_INTERVAL).toNat).filter
    (fun i => decide (env.extract i ≠ ExtractOutcome.fail))

/-- Cleanup `finally` block of the `generate` route (app.py lines
331-347): remove the downloaded video if present, then remove every
path recorded in `thumbnail_paths`. -/
def cleanup (fs : Finset JobFile) (thumbs : List ℕ) : Finset JobFile :=
  (fs.erase JobFile.video) \ (thumbs.map JobFile.thumb).toFinset

/-- Cue-timing interval chosen by the orchestrator (app.py lines
289-296): `max(1, math.floor(duration / 2)) if duration > 0 else 1`
when `duration < THUMBNAIL_INTERVAL`, otherwise `THUMBNAIL_INTERVAL`. -/
def thumbnail_interval_for_vtt (duration : ℚ) : ℚ :=
  if duration < THUMBNAIL_INTERVAL then
    (if 0 < duration then ((max 1 ⌊duration / 2⌋ : ℤ) : ℚ) else 1)
  else THUMBNAIL_INTERVAL

/-- Observable result of one run of the `generate` route: terminal
outcome, the job's files still on disk after the `finally` cleanup, the
`thumbnail_paths` list at cleanup time, the cue interval passed to
`create_vtt_file`, and the seek timestamps requested by the sampler. -/
structure GenResult where
  outcome : JobOutcome
  fs : Finset JobFile
  thumbs : List ℕ
  vttInterval : ℚ
  sampled : List ℚ

/-- Orchestration of the `generate` route (app.py lines 262-352),
branching on the environment's external outcomes.  Filesystem effects
modelled: the download writes the video file; each non-`fail`
extraction leaves a thumbnail file; `create_sprite_image` writes and
(in its own `finally`) removes the concat list and writes the sprite on
success; `create_vtt_file` opens the VTT file for writing before any
write can fail; the route's `finally` block then deletes the video and
every path in `thumbnail_paths`. -/
def generate (env : JobEnv) : GenResult :=
  if env.downloadOk then
    match env.probed with
    | some duration =>
      if duration ≤ 0 then
        ⟨JobOutcome.durationFailed, cleanup {JobFile.video} [], [], 0, []⟩
      else
        let ts := requested_timestamps duration THUMBNAIL_INTERVAL
        let vttInt := thumbnail_interval_for_vtt duration
        let thumbs := surviving_indices env duration
        let fs1 : Finset JobFile :=
          insert JobFile.video
            (((created_indices env duration).map JobFile.thumb).toFinset)
        if thumbs.isEmpty then
          ⟨JobOutcome.noThumbnails, cleanup fs1 thumbs, thumbs, vttInt, ts⟩
        else if env.tilingOk then
          if env.vttWriteOk then
            ⟨JobOutcome.success,
              cleanup (insert JobFile.vtt (insert JobFile.sprite fs1)) thumbs,
              thumbs, vttInt, ts⟩
          else
            ⟨JobOutcome.vttFailed,
              cleanup (insert JobFile.vtt (insert JobFile.sprite fs1)) thumbs,
              thumbs, vttInt, ts⟩
        else
          ⟨JobOutcome.spriteFailed, cleanup fs1 thumbs, thumbs, vttInt, ts⟩
    | none => ⟨JobOutcome.durationFailed, cleanup {JobFile.video} [], [], 0, []⟩
  else ⟨JobOutcome.downloadFailed, cleanup ∅ [], [], 0, []⟩

/-- Environment for the C5 counterexample: download, probe (23 s),
tiling and VTT write all succeed; extraction of frame 0 leaves an empty
file on disk, all later extractions succeed. -/
def envC5 : JobEnv where
  downloadOk := true
  probed := some 23
  extract := fun i => if i = 0 then ExtractOutcome.emptyFile else ExtractOutcome.ok
  tilingOk := true
  vttWriteOk := true

/-- Environment for the C1 witness: a 3-second video, every external
step succeeding. -/
def envC1 : JobEnv where
  downloadOk := true
  probed := some 3
  extract := fun _ => ExtractOutcome.ok
  tilingOk := true
  vttWriteOk := true

/-- Environment for the C6 witness: a 3-second video whose only frame
extraction fails, so no frames survive. -/
def envC6 : JobEnv where
  downloadOk := true
  probed := some 3
  extract := fun _ => ExtractOutcome.fail
  tilingOk := true
  vttWriteOk := true

/-- Configuration constant `THUMBNAIL_FOLDER` (app.py line 17). -/
def THUMBNAIL_FOLDER : String := "temp_thumbnails"

/-- Resolution of a relative path given as segments, as the operating
system resolves it when the route touches the joined path: `..` pops a
segment, `.` is skipped. -/
def resolve_segments (segs : List String) : List String :=
  segs.foldl
    (fun acc s =>
      if s = ".." then acc.dropLast else if s = "." then acc else acc ++ [s])
    []

/-- Filesystem at the asset-retrieval boundary: which resolved paths
are existing regular files. -/
structure AssetFS where
  isFile : List String → Bool

/-- Response of the asset route: the file served, or a 404. -/
inductive ServeResult
  | file : List String → ServeResult
  | notFound
deriving DecidableEq

/-- Asset route `serve_thumbnail_assets` (app.py lines 356-367): join
`THUMBNAIL_FOLDER/job_id/filename`, serve the file if it exists and is
a regular file, else answer 404.  No containment check is performed on
the resolved path. -/
def serve_thumbnail_assets (fs : AssetFS) (jobId filename : String) :
    ServeResult :=
  let full := resolve_segments [THUMBNAIL_FOLDER, jobId, filename]
  if fs.isFile full then ServeResult.file full else ServeResult.notFound

/-- Containment of a resolved path in the workspace of job `jobId`:
the path must lie under `THUMBNAIL_FOLDER/jobId`. -/
def in_workspace (jobId : String) (p : List String) : Bool :=
  match p with
  | a :: b :: _ => a == THUMBNAIL_FOLDER && b == jobId
  | _ => false

/-- Filesystem for the C7 failing input: a single regular file
`app.py` at the repository root, next to `temp_thumbnails`. -/
def fsC7 : AssetFS where
  isFile := fun p => decide (p = ["app.py"])

/-- C2: for every duration `d > 0` and sampling interval `k > 0`, the
sampler requests exactly `⌈d / k⌉` timestamps, the `i`-th being
`min(i * k, d - 0.1)`, so no requested timestamp exceeds `d - 0.1`. -/
theorem C2_sampler_count_and_clamp (d k : ℚ) (hd : 0 < d) (hk : 0 < k) :
    (((requested_timestamps d k).length : ℤ) = ⌈d / k⌉) ∧
    (∀ i : ℕ, ∀ h : i < (requested_timestamps d k).length,
      (requested_timestamps d k).get ⟨i, h⟩ = min ((i : ℚ) * k) (d - 1/10)) ∧
    (∀ t ∈ requested_timestamps d k, t ≤ d - 1/10) := by
  have hceil : (0 : ℤ) ≤ ⌈d / k⌉ := Int.ceil_nonneg (div_nonneg hd.le hk.le)
  refine ⟨?_, ?_, ?_⟩
  · rw [requested_timestamps, List.length_map, List.length_range, num_thumbnails,
      Int.toNat_of_nonneg hceil]
  · intro i h
    simp only [requested_timestamps, List.get_map, List.get_range]
  · intro t ht
    simp only [requested_timestamps, List.mem_map] at ht
    obtain ⟨i, _, rfl⟩ := ht
    exact min_le_right _ _

/-- C2 witness: instantiation at `d = 23`, `k = 5`. -/
theorem C2_sampler_count_and_clamp_witness :
    (((requested_timestamps 23 5).length : ℤ) = ⌈(23 : ℚ) / 5⌉) ∧
    (∀ i : ℕ, ∀ h : i < (requested_timestamps 23 5).length,
      (requested_timestamps 23 5).get ⟨i, h⟩ = min ((i : ℚ) * 5) (23 - 1/10)) ∧
    (∀ t ∈ requested_timestamps 23 5, t ≤ 23 - 1/10) :=
  C2_sampler_count_and_clamp 23 5 (by norm_num) (by norm_num)

/-- C3 counterexample: with 17281 cue entries and interval 5, the entry
at index 17280 has `startSec = 86400 > 86399.999`: `create_vtt_file`
caps only end times, so start timestamps are not capped at 86399.999
(this start time even exceeds its own capped end time, so the
timestamps in file order are not non-decreasing either). -/
theorem C3_counterexample :
    ∃ cue ∈ vtt_cues 17281 5 THUMBS_PER_ROW,
      86399999/1000 < cue.startSec ∧ cue.endSec < cue.startSec := by
  refine ⟨_, List.mem_map.mpr ⟨17280, List.mem_range.mpr (by norm_num), rfl⟩,
    ?_, ?_⟩ <;> norm_num

/-- C3 amended: the `i`-th cue entry has `startSec = i * k` (uncapped)
and `endSec = min(i * k + k, 86399.999)`; end times never exceed
86399.999, and for a nonnegative interval both start and end times are
monotonically non-decreasing across entries (start times can still
exceed 86399.999, as the counterexample shows). -/
theorem C3_amended_end_cap_and_monotone (n : ℕ) (k : ℚ) (hk : 0 ≤ k) :
    (∀ i : ℕ, ∀ h : i < (vtt_cues n k THUMBS_PER_ROW).length,
      ((vtt_cues n k THUMBS_PER_ROW).get ⟨i, h⟩).startSec = (i : ℚ) * k ∧
      ((vtt_cues n k THUMBS_PER_ROW).get ⟨i, h⟩).endSec
        = min ((i : ℚ) * k + k) (86399999/1000) ∧
      ((vtt_cues n k THUMBS_PER_ROW).get ⟨i, h⟩).endSec ≤ 86399999/1000) ∧
    (∀ i j : ℕ, ∀ hi : i < (vtt_cues n k THUMBS_PER_ROW).length,
      ∀ hj : j < (vtt_cues n k THUMBS_PER_ROW).length, i ≤ j →
      ((vtt_cues n k THUMBS_PER_ROW).get ⟨i, hi⟩).startSec
        ≤ ((vtt_cues n k THUMBS_PER_ROW).get ⟨j, hj⟩).startSec ∧
      ((vtt_cues n k THUMBS_PER_ROW).get ⟨i, hi⟩).endSec
        ≤ ((vtt_cues n k THUMBS_PER_ROW).get ⟨j, hj⟩).endSec) := by
  constructor
  · intro i h
    refine ⟨?_, ?_, ?_⟩ <;> simp only [vtt_cues, List.get_map, List.get_range]
    exact min_le_right _ _
  · intro i j hi hj hij
    have hmul : (i : ℚ) * k ≤ (j : ℚ) * k :=
      mul_le_mul_of_nonneg_right (by exact_mod_cast hij) hk
    constructor <;> simp only [vtt_cues, List.get_map, List.get_range]
    · exact hmul
    · exact min_le_min (by linarith) le_rfl

/-- C3 amended witness: instantiation at `n = 3`, `k = 5`. -/
theorem C3_amended_end_cap_and_monotone_witness :
    (∀ i : ℕ, ∀ h : i < (vtt_cues 3 5 THUMBS_PER_ROW).length,
      ((vtt_cues 3 5 THUMBS_PER_ROW).get ⟨i, h⟩).startSec = (i : ℚ) * 5 ∧
      ((vtt_cues 3 5 THUMBS_PER_ROW).get ⟨i, h⟩).endSec
        = min ((i : ℚ) * 5 + 5) (86399999/1000) ∧
      ((vtt_cues 3 5 THUMBS_PER_ROW).get ⟨i, h⟩).endSec ≤ 86399999/1000) ∧
    (∀ i j : ℕ, ∀ hi : i < (vtt_cues 3 5 THUMBS_PER_ROW).length,
      ∀ hj : j < (vtt_cues 3 5 THUMBS_PER_ROW).length, i ≤ j →
      ((vtt_cues 3 5 THUMBS_PER_ROW).get ⟨i, hi⟩).startSec
        ≤ ((vtt_cues 3 5 THUMBS_PER_ROW).get ⟨j, hj⟩).startSec ∧
      ((vtt_cues 3 5 THUMBS_PER_ROW).get ⟨i, hi⟩).endSec
        ≤ ((vtt_cues 3 5 THUMBS_PER_ROW).get ⟨j, hj⟩).endSec) :=
  C3_amended_end_cap_and_monotone 3 5 (by norm_num)

/-- Helper: the float ceiling `math.ceil(n / c)` agrees with natural
ceiling division. -/
theorem ceil_natCast_div_natCast (n c : ℕ) (hc : 0 < c) :
    ⌈(n : ℚ) / (c : ℚ)⌉ = (((n + c - 1) / c : ℕ) : ℤ) := by
  have hc' : (0 : ℚ) < (c : ℚ) := by exact_mod_cast hc
  have hmod := Nat.div_add_mod (n + c - 1) c
  have hlt : (n + c - 1) % c < c := Nat.mod_lt _ hc
  set q := (n + c - 1) / c with hq
  have h1 : n ≤ c * q := by omega
  have h2 : c * q + 1 ≤ n + c := by omega
  have h1' : (n : ℚ) ≤ (c : ℚ) * (q : ℚ) := by exact_mod_cast h1
  have h2' : (c : ℚ) * (q : ℚ) + 1 ≤ (n : ℚ) + (c : ℚ) := by exact_mod_cast h2
  rw [Int.ceil_eq_iff]
  constructor
  · push_cast
    rw [lt_div_iff hc']
    nlinarith [h2']
  · push_cast
    rw [div_le_iff hc']
    nlinarith [h1']

/-- C4: for `n` surviving frames and `c > 0` columns, the composer's row
count is `max(1, ceil(n / c))` (equal to natural ceiling division), and
the `i`-th cue entry's pixel offsets are those of grid cell
`(i % c, i / c)` — exactly where the row-major tiling places the `i`-th
input — with `col < c` and `row < rows`, so the cue rectangle lies
inside the composed `c × rows` image. -/
theorem C4_grid_geometry (n c i : ℕ) (k : ℚ) (hc : 0 < c) (hi : i < n) :
    num_rows n c = max 1 (((n + c - 1) / c : ℕ) : ℤ) ∧
    ∃ h : i < (vtt_cues n k c).length,
      ((vtt_cues n k c).get ⟨i, h⟩).x = (tile_pos c i).1 * THUMB_WIDTH ∧
      ((vtt_cues n k c).get ⟨i, h⟩).y = (tile_pos c i).2 * THUMB_HEIGHT ∧
      (tile_pos c i).1 < c ∧
      ((tile_pos c i).2 : ℤ) < num_rows n c := by
  have hc' : (0 : ℚ) < (c : ℚ) := by exact_mod_cast hc
  have hlen : i < (vtt_cues n k c).length := by
    simpa [vtt_cues] using hi
  refine ⟨by rw [num_rows, ceil_natCast_div_natCast n c hc], hlen, ?_, ?_, ?_, ?_⟩
  · simp [vtt_cues, tile_pos, List.get_map, List.get_range]
  · simp [vtt_cues, tile_pos, List.get_map, List.get_range]
  · exact Nat.mod_lt _ hc
  · refine lt_max_of_lt_right ?_
    rw [Int.lt_ceil]
    rw [lt_div_iff hc']
    calc ((i / c : ℕ) : ℚ) * (c : ℚ) = ((i / c * c : ℕ) : ℚ) := by push_cast; ring
    _ ≤ (i : ℚ) := by exact_mod_cast Nat.div_mul_le_self i c
    _ < (n : ℚ) := by exact_mod_cast hi

/-- C4 witness: instantiation at `n = 23`, `c = 10`, `i = 17`, `k = 5`. -/
theorem C4_grid_geometry_witness :
    num_rows 23 10 = max 1 (((23 + 10 - 1) / 10 : ℕ) : ℤ) ∧
    ∃ h : 17 < (vtt_cues 23 5 10).length,
      ((vtt_cues 23 5 10).get ⟨17, h⟩).x = (tile_pos 10 17).1 * THUMB_WIDTH ∧
      ((vtt_cues 23 5 10).get ⟨17, h⟩).y = (tile_pos 10 17).2 * THUMB_HEIGHT ∧
      (tile_pos 10 17).1 < 10 ∧
      ((tile_pos 10 17).2 : ℤ) < num_rows 23 10 :=
  C4_grid_geometry 23 10 17 5 (by norm_num) (by norm_num)

/-- Helper: on a run whose download and probe succeed with a positive
duration, `generate` records the adjusted cue interval, the sampler's
requested timestamps and the surviving `thumbnail_paths`. -/
theorem generate_fields (env : JobEnv) (d : ℚ)
    (hdl : env.downloadOk = true) (hp : env.probed = some d) (hd : 0 < d) :
    (generate env).vttInterval = thumbnail_interval_for_vtt d ∧
    (generate env).sampled = requested_timestamps d THUMBNAIL_INTERVAL ∧
    (generate env).thumbs = surviving_indices env d := by
  simp only [generate, hdl, hp, if_neg (not_le.mpr hd), if_true]
  split_ifs <;> exact ⟨rfl, rfl, rfl⟩

/-- Helper: `⌈3 / 5⌉ = 1` in the sampler's counting arithmetic. -/
theorem num_thumbnails_3 : (num_thumbnails 3 THUMBNAIL_INTERVAL).toNat = 1 := by
  rw [num_thumbnails, THUMBNAIL_INTERVAL,
    show ⌈(3 : ℚ) / 5⌉ = 1 by rw [Int.ceil_eq_iff] <;> norm_num]
  rfl

/-- Helper: a 3-second video yields the single requested timestamp 0. -/
theorem requested_timestamps_3 :
    requested_timestamps 3 THUMBNAIL_INTERVAL = [0] := by
  rw [requested_timestamps, num_thumbnails_3,
    show List.range 1 = [0] from rfl]
  simp [THUMBNAIL_INTERVAL]
  norm_num [min_def]

/-- C1: when the probed duration satisfies `0 < d < THUMBNAIL_INTERVAL`,
the orchestrator's cue-timing interval is `max(1, floor(d / 2))` while
the sampler's extraction timestamps are still computed from the
configured interval; in particular a 3-second video gets cue interval 1
and a single requested timestamp `t = 0`. -/
theorem C1_short_video_cue_interval (env : JobEnv) (d : ℚ)
    (hdl : env.downloadOk = true) (hp : env.probed = some d)
    (h0 : 0 < d) (h5 : d < THUMBNAIL_INTERVAL) :
    (generate env).vttInterval = ((max 1 ⌊d / 2⌋ : ℤ) : ℚ) ∧
    (generate env).sampled = requested_timestamps d THUMBNAIL_INTERVAL ∧
    thumbnail_interval_for_vtt 3 = 1 ∧
    requested_timestamps 3 THUMBNAIL_INTERVAL = [0] := by
  obtain ⟨h1, h2, -⟩ := generate_fields env d hdl hp h0
  refine ⟨?_, h2, ?_, requested_timestamps_3⟩
  · rw [h1, thumbnail_interval_for_vtt, if_pos h5, if_pos h0]
  · rw [thumbnail_interval_for_vtt, THUMBNAIL_INTERVAL,
      if_pos (by norm_num : (3 : ℚ) < 5), if_pos (by norm_num : (0 : ℚ) < 3),
      show ⌊(3 : ℚ) / 2⌋ = 1 by rw [Int.floor_eq_iff] <;> norm_num]
    norm_num

/-- C1 witness: instantiation at a 3-second video. -/
theorem C1_short_video_cue_interval_witness :
    (generate envC1).vttInterval = ((max 1 ⌊(3 : ℚ) / 2⌋ : ℤ) : ℚ) ∧
    (generate envC1).sampled = requested_timestamps 3 THUMBNAIL_INTERVAL ∧
    thumbnail_interval_for_vtt 3 = 1 ∧
    requested_timestamps 3 THUMBNAIL_INTERVAL = [0] :=
  C1_short_video_cue_interval envC1 3 rfl rfl (by norm_num)
    (by rw [THUMBNAIL_INTERVAL]; norm_num)

/-- C6: when no frames survive extraction, the sprite composer is a
no-op that fails on the empty sequence, and the job ends in the
`noThumbnails` failure with neither a sprite nor a VTT file on disk. -/
theorem C6_empty_survivors (env : JobEnv) (d : ℚ)
    (hdl : env.downloadOk = true) (hp : env.probed = some d) (hd : 0 < d)
    (hempty : surviving_indices env d = []) :
    (∀ b : Bool, create_sprite_ok [] b = false) ∧
    (generate env).outcome = JobOutcome.noThumbnails ∧
    JobFile.sprite ∉ (generate env).fs ∧
    JobFile.vtt ∉ (generate env).fs := by
  have hbranch :
      generate env =
        ⟨JobOutcome.noThumbnails,
          cleanup
            (insert JobFile.video
              (((created_indices env d).map JobFile.thumb).toFinset))
            (surviving_indices env d),
          surviving_indices env d, thumbnail_interval_for_vtt d,
          requested_timestamps d THUMBNAIL_INTERVAL⟩ := by
    simp only [generate, hdl, hp, if_neg (not_le.mpr hd), if_true]
    rw [if_pos (by rw [hempty]; rfl)]
  refine ⟨fun b => rfl, ?_, ?_, ?_⟩
  · rw [hbranch]
  · rw [hbranch]
    simp only [cleanup, Finset.mem_sdiff, Finset.mem_erase, Finset.mem_insert,
      List.mem_toFinset, List.mem_map, not_and, not_not]
    intro hmem
    rcases hmem.2 with h | ⟨i, _, h⟩ <;> exact absurd h (by simp)
  · rw [hbranch]
    simp only [cleanup, Finset.mem_sdiff, Finset.mem_erase, Finset.mem_insert,
      List.mem_toFinset, List.mem_map, not_and, not_not]
    intro hmem
    rcases hmem.2 with h | ⟨i, _, h⟩ <;> exact absurd h (by simp)

/-- C6 witness: instantiation at a 3-second video all of whose
extractions fail. -/
theorem C6_empty_survivors_witness :
    (∀ b : Bool, create_sprite_ok [] b = false) ∧
    (generate envC6).outcome = JobOutcome.noThumbnails ∧
    JobFile.sprite ∉ (generate envC6).fs ∧
    JobFile.vtt ∉ (generate envC6).fs :=
  C6_empty_survivors envC6 3 rfl rfl (by norm_num)
    (by rw [surviving_indices, num_thumbnails_3]; rfl)

/-- Helper: membership in the surviving `thumbnail_paths`. -/
theorem mem_surviving {env : JobEnv} {d : ℚ} {i : ℕ} :
    i ∈ surviving_indices env d ↔
      i ∈ List.range (num_thumbnails d THUMBNAIL_INTERVAL).toNat ∧
        env.extract i = ExtractOutcome.ok := by
  simp [surviving_indices]

/-- Helper: membership in the set of indices whose file is on disk. -/
theorem mem_created {env : JobEnv} {d : ℚ} {i : ℕ} :
    i ∈ created_indices env d ↔
      i ∈ List.range (num_thumbnails d THUMBNAIL_INTERVAL).toNat ∧
        env.extract i ≠ ExtractOutcome.fail := by
  simp [created_indices]

/-- Helper: unpacking membership in the post-cleanup filesystem. -/
theorem mem_cleanup {fs : Finset JobFile} {th : List ℕ} {f : JobFile}
    (h : f ∈ cleanup fs th) :
    f ∈ fs ∧ f ≠ JobFile.video ∧ ∀ i ∈ th, f ≠ JobFile.thumb i := by
  simp only [cleanup, Finset.mem_sdiff, Finset.mem_erase, List.mem_toFinset,
    List.mem_map] at h
  refine ⟨h.1.2, h.1.1, ?_⟩
  intro i hi hf
  exact h.2 ⟨i, hi, hf.symm⟩

/-- Helper: what cleanup leaves behind, for a pre-cleanup filesystem
whose members are the video, final artifacts, or thumbnails of
non-failed extractions whose successful ones are all recorded. -/
theorem cleanup_leaves (env : JobEnv) (F : Finset JobFile) (th : List ℕ)
    (hF : ∀ f ∈ F, f = JobFile.video ∨ f = JobFile.sprite ∨ f = JobFile.vtt ∨
      ∃ i, f = JobFile.thumb i ∧ env.extract i ≠ ExtractOutcome.fail ∧
        (env.extract i = ExtractOutcome.ok → i ∈ th)) :
    JobFile.video ∉ cleanup F th ∧
    (∀ i ∈ th, JobFile.thumb i ∉ cleanup F th) ∧
    (∀ f ∈ cleanup F th,
      f = JobFile.sprite ∨ f = JobFile.vtt ∨
      ∃ i, f = JobFile.thumb i ∧ env.extract i = ExtractOutcome.emptyFile) := by
  refine ⟨?_, ?_, ?_⟩
  · intro h
    exact (mem_cleanup h).2.1 rfl
  · intro i hi h
    exact (mem_cleanup h).2.2 i hi rfl
  · intro f hf
    obtain ⟨hmem, hnv, hnth⟩ := mem_cleanup hf
    rcases hF f hmem with rfl | rfl | rfl | ⟨i, rfl, hnf, hok⟩
    · exact absurd rfl hnv
    · exact Or.inl rfl
    · exact Or.inr (Or.inl rfl)
    · refine Or.inr (Or.inr ⟨i, rfl, ?_⟩)
      cases hx : env.extract i with
      | ok => exact absurd rfl (hnth i (hok hx))
      | emptyFile => rfl
      | fail => exact absurd hx hnf

/-- Helper: the pre-cleanup filesystem of the sampling stage satisfies
the hypothesis of `cleanup_leaves` with the surviving indices. -/
theorem created_fs_spec (env : JobEnv) (d : ℚ) :
    ∀ f ∈ insert JobFile.video
        (((created_indices env d).map JobFile.thumb).toFinset),
      f = JobFile.video ∨ f = JobFile.sprite ∨ f = JobFile.vtt ∨
      ∃ i, f = JobFile.thumb i ∧ env.extract i ≠ ExtractOutcome.fail ∧
        (env.extract i = ExtractOutcome.ok → i ∈ surviving_indices env d) := by
  intro f hf
  simp only [Finset.mem_insert, List.mem_toFinset, List.mem_map] at hf
  rcases hf with rfl | ⟨i, hi, rfl⟩
  · exact Or.inl rfl
  · refine Or.inr (Or.inr (Or.inr ⟨i, rfl, (mem_created.mp hi).2, ?_⟩))
    intro hok
    exact mem_surviving.mpr ⟨(mem_created.mp hi).1, hok⟩

/-- C5 counterexample: a successful job (23-second video) whose frame-0
extraction wrote an empty file: the job succeeds, yet the frame file
`thumb_0000.jpg` is still on disk after cleanup, because only the paths
recorded in `thumbnail_paths` are deleted. -/
theorem C5_counterexample :
    (generate envC5).outcome = JobOutcome.success ∧
    JobFile.thumb 0 ∈ (generate envC5).fs ∧
    envC5.extract 0 = ExtractOutcome.emptyFile := by
  have hn : (num_thumbnails 23 THUMBNAIL_INTERVAL).toNat = 5 := by
    rw [num_thumbnails, THUMBNAIL_INTERVAL,
      show ⌈(23 : ℚ) / 5⌉ = 5 by rw [Int.ceil_eq_iff] <;> norm_num]
    rfl
  have hsurv : surviving_indices envC5 23 = [1, 2, 3, 4] := by
    rw [surviving_indices, hn]
    decide
  have hcre : created_indices envC5 23 = [0, 1, 2, 3, 4] := by
    rw [created_indices, hn]
    decide
  have hbranch :
      generate envC5 =
        ⟨JobOutcome.success,
          cleanup
            (insert JobFile.vtt (insert JobFile.sprite
              (insert JobFile.video
                ((([0, 1, 2, 3, 4] : List ℕ).map JobFile.thumb).toFinset))))
            [1, 2, 3, 4],
          [1, 2, 3, 4], thumbnail_interval_for_vtt 23,
          requested_timestamps 23 THUMBNAIL_INTERVAL⟩ := by
    simp only [generate,
      show envC5.downloadOk = true from rfl,
      show envC5.probed = some 23 from rfl,
      show envC5.tilingOk = true from rfl,
      show envC5.vttWriteOk = true from rfl,
      if_neg (by norm_num : ¬ (23 : ℚ) ≤ 0), if_true, hsurv, hcre]
    rfl
  rw [hbranch]
  exact ⟨rfl, by decide, rfl⟩

/-- C5 amended: after any job terminates, the downloaded video and
every frame file recorded in `thumbnail_paths` are absent; anything
remaining besides the sprite image and the VTT file is a frame file
whose extraction left an empty output — such paths were never recorded,
so the cleanup loop does not delete them. -/
theorem C5_amended_cleanup (env : JobEnv) :
    JobFile.video ∉ (generate env).fs ∧
    (∀ i ∈ (generate env).thumbs, JobFile.thumb i ∉ (generate env).fs) ∧
    (∀ f ∈ (generate env).fs,
      f = JobFile.sprite ∨ f = JobFile.vtt ∨
      ∃ i, f = JobFile.thumb i ∧ env.extract i = ExtractOutcome.emptyFile) := by
  by_cases hdl : env.downloadOk = true
  · rcases hpd : env.probed with _ | d
    · simp only [generate, hdl, hpd, if_true]
      refine cleanup_leaves env {JobFile.video} [] ?_
      intro f hf
      simp only [Finset.mem_singleton] at hf
      exact Or.inl hf
    · by_cases hd : d ≤ 0
      · simp only [generate, hdl, hpd, if_pos hd, if_true]
        refine cleanup_leaves env {JobFile.video} [] ?_
        intro f hf
        simp only [Finset.mem_singleton] at hf
        exact Or.inl hf
      · simp only [generate, hdl, hpd, if_neg hd, if_true]
        split_ifs with hemp htile hvtt
        · exact cleanup_leaves env _ _ (created_fs_spec env d)
        · refine cleanup_leaves env _ _ ?_
          intro f hf
          simp only [Finset.mem_insert] at hf
          rcases hf with rfl | rfl | hf
          · exact Or.inr (Or.inr (Or.inl rfl))
          · exact Or.inr (Or.inl rfl)
          · exact created_fs_spec env d f (by simpa using hf)
        · refine cleanup_leaves env _ _ ?_
          intro f hf
          simp only [Finset.mem_insert] at hf
          rcases hf with rfl | rfl | hf
          · exact Or.inr (Or.inr (Or.inl rfl))
          · exact Or.inr (Or.inl rfl)
          · exact created_fs_spec env d f (by simpa using hf)
        · exact cleanup_leaves env _ _ (created_fs_spec env d)
  · simp only [generate, hdl, if_false]
    refine cleanup_leaves env ∅ [] ?_
    intro f hf
    exact absurd hf (Finset.not_mem_empty f)

/-- C5 amended witness: instantiation at the environment of the
counterexample. -/
theorem C5_amended_cleanup_witness :
    JobFile.video ∉ (generate envC5).fs ∧
    (∀ i ∈ (generate envC5).thumbs, JobFile.thumb i ∉ (generate envC5).fs) ∧
    (∀ f ∈ (generate envC5).fs,
      f = JobFile.sprite ∨ f = JobFile.vtt ∨
      ∃ i, f = JobFile.thumb i ∧ envC5.extract i = ExtractOutcome.emptyFile) :=
  C5_amended_cleanup envC5

/-- Helper: order of digit characters mirrors the order of digits. -/
theorem digitChar_lt_iff {a b : ℕ} (ha : a < 10) (hb : b < 10) :
    digitChar a < digitChar b ↔ a < b := by
  interval_cases a <;> interval_cases b <;> decide

/-- Helper: a common prefix does not affect the lexicographic
comparison. -/
theorem charListLt_append_same (p a b : List Char) :
    charListLt (p ++ a) (p ++ b) = charListLt a b := by
  induction p with
  | nil => rfl
  | cons c cs ih =>
    simp only [List.cons_append, charListLt, if_neg (lt_irrefl c)]
    exact ih

/-- Helper: four-digit blocks compare lexicographically as the numbers
they denote, whatever follows them. -/
theorem charListLt_digits4 {a1 a2 a3 a4 b1 b2 b3 b4 : ℕ} (s t : List Char)
    (ha1 : a1 < 10) (ha2 : a2 < 10) (ha3 : a3 < 10) (ha4 : a4 < 10)
    (hb1 : b1 < 10) (hb2 : b2 < 10) (hb3 : b3 < 10) (hb4 : b4 < 10)
    (hlt : a1 * 1000 + a2 * 100 + a3 * 10 + a4 <
      b1 * 1000 + b2 * 100 + b3 * 10 + b4) :
    charListLt
      (digitChar a1 :: digitChar a2 :: digitChar a3 :: digitChar a4 :: s)
      (digitChar b1 :: digitChar b2 :: digitChar b3 :: digitChar b4 :: t)
      = true := by
  simp only [charListLt,
    digitChar_lt_iff ha1 hb1, digitChar_lt_iff hb1 ha1,
    digitChar_lt_iff ha2 hb2, digitChar_lt_iff hb2 ha2,
    digitChar_lt_iff ha3 hb3, digitChar_lt_iff hb3 ha3,
    digitChar_lt_iff ha4 hb4, digitChar_lt_iff hb4 ha4]
  split_ifs <;> first | rfl | (exfalso; omega)

/-- Helper: for indices below 10000, thumbnail paths in one directory
compare lexicographically as their indices. -/
theorem charListLt_thumb_path (dir : List Char) {i j : ℕ}
    (hi : i < 10000) (hj : j < 10000) (hij : i < j) :
    charListLt (thumb_path dir i) (thumb_path dir j) = true := by
  have hre : ∀ m : ℕ, thumb_path dir m
      = (dir ++ '/' :: "thumb_".data) ++ (zeroPad4 m ++ ".jpg".data) := by
    intro m
    simp [thumb_path, thumb_filename]
  rw [hre i, hre j, charListLt_append_same]
  rw [zeroPad4, if_pos hi, zeroPad4, if_pos hj]
  simp only [List.cons_append]
  exact charListLt_digits4 _ _ (by omega) (by omega) (by omega) (by omega)
    (by omega) (by omega) (by omega) (by omega) (by omega)

/-- Helper: the lexicographic strict order is asymmetric. -/
theorem charListLt_asymm : ∀ a b : List Char,
    charListLt a b = true → charListLt b a = false
  | [], [] => by simp [charListLt]
  | [], b :: bs => by simp [charListLt]
  | a :: as, [] => by simp [charListLt]
  | a :: as, b :: bs => by
    simp only [charListLt]
    intro h
    by_cases h1 : a < b
    · rw [if_neg (asymm h1), if_pos h1]
    · by_cases h2 : b < a
      · rw [if_neg h1, if_pos h2] at h
        exact absurd h (by simp)
      · rw [if_neg h1, if_neg h2] at h
        rw [if_neg h2, if_neg h1]
        exact charListLt_asymm as bs h

/-- Helper: strict lexicographic order implies the non-strict one. -/
theorem charListLe_of_lt {a b : List Char} (h : charListLt a b = true) :
    charListLe a b = true := by
  rw [charListLe, charListLt_asymm a b h]
  rfl

/-- C8 counterexample: two surviving frames with indices 9999 and 10000
are fed to the tiling capability out of index order, because
`sorted(thumbnail_paths)` compares the names as strings and
`thumb_10000.jpg` sorts before `thumb_9999.jpg` (the `04d` padding no
longer aligns the digits). -/
theorem C8_counterexample :
    composer_fed_order [thumb_path ['t'] 9999, thumb_path ['t'] 10000]
      ≠ [thumb_path ['t'] 9999, thumb_path ['t'] 10000] := by
  decide

/-- C8 amended: for surviving frames whose indices are all below 10000
(the range in which the `04d` zero padding aligns the file names), the
composer feeds the frame files in strictly increasing index order; and
the surviving index sequence produced by the sampler is always strictly
increasing. -/
theorem C8_amended_sorted_feed (dir : List Char) (l : List ℕ)
    (hsort : List.Sorted (· < ·) l) (hbound : ∀ i ∈ l, i < 10000) :
    composer_fed_order (l.map (thumb_path dir)) = l.map (thumb_path dir) ∧
    ∀ env : JobEnv, ∀ d : ℚ,
      List.Sorted (· < ·) (surviving_indices env d) := by
  constructor
  · have hpw : List.Pairwise (fun a b => charListLe a b = true)
        (l.map (thumb_path dir)) := by
      rw [List.pairwise_map]
      refine List.Pairwise.imp_of_mem ?_ hsort
      intro a b ha hb hab
      exact charListLe_of_lt
        (charListLt_thumb_path dir (hbound a ha) (hbound b hb) hab)
    exact List.Sorted.insertionSort_eq hpw
  · intro env d
    exact (List.pairwise_lt_range _).filter _

/-- C8 amended witness: two frames with indices 1 and 2 in directory
`t` are fed in index order. -/
theorem C8_amended_sorted_feed_witness :
    composer_fed_order ([1, 2].map (thumb_path ['t']))
      = [1, 2].map (thumb_path ['t']) ∧
    ∀ env : JobEnv, ∀ d : ℚ,
      List.Sorted (· < ·) (surviving_indices env d) :=
  C8_amended_sorted_feed ['t'] [1, 2] (by decide) (by decide)

/-- C7: the asset route is served the failing input `jobId = ".."`,
`filename = "app.py"` (with `app.py` existing next to the thumbnail
folder): the joined path resolves to `app.py`, outside every job
workspace, yet the route serves it instead of answering 404 — it checks
only that the path exists and is a regular file, despite its comments
promising directory-traversal protection. -/
theorem C7_traversal_not_rejected :
    serve_thumbnail_assets fsC7 ".." "app.py" = ServeResult.file ["app.py"] ∧
    (∀ jobId : String, in_workspace jobId ["app.py"] = false) :=
  ⟨rfl, fun _ => rfl⟩

/-- Helper: a 23-second video at interval 5 yields exactly the
requested timestamps 0, 5, 10, 15, 20. -/
theorem requested_timestamps_23_5 :
    requested_timestamps 23 5 = [0, 5, 10, 15, 20] := by
  have hn : (num_thumbnails 23 5).toNat = 5 := by
    rw [num_thumbnails,
      show ⌈(23 : ℚ) / 5⌉ = 5 by rw [Int.ceil_eq_iff] <;> norm_num]
    rfl
  rw [requested_timestamps, hn, show List.range 5 = [0, 1, 2, 3, 4] from rfl]
  simp only [List.map_cons, List.map_nil]
  norm_num [min_def]

/-- C9 counterexample: for a 23-second video at interval 5 the last
requested timestamp is 20, not 22.9: the clamp `min(4 * 5, 22.9)`
does not fire, so the last timestamp is not "clamped to 22.9". -/
theorem C9_counterexample :
    (requested_timestamps 23 5).getLast? = some 20 ∧
    (requested_timestamps 23 5).getLast? ≠ some (229/10) := by
  have h20 : ([0, 5, 10, 15, 20] : List ℚ).getLast? = some 20 := rfl
  rw [requested_timestamps_23_5, h20]
  refine ⟨rfl, ?_⟩
  intro h
  rw [Option.some_inj] at h
  norm_num at h

/-- C9 amended: a 23-second video at interval 5 yields exactly the five
timestamps 0, 5, 10, 15, 20; the clamp bound `23 - 0.1 = 22.9` is not
binding on the last one (`min(20, 22.9) = 20`); and when all
extractions succeed, the cue file for the five frames with `c ≥ 5`
columns has five entries with `x = i * 160` and `y = 0`. -/
theorem C9_amended_23s_pipeline (c : ℕ) (hc : 5 ≤ c) :
    requested_timestamps 23 5 = [0, 5, 10, 15, 20] ∧
    min ((4 : ℚ) * 5) (23 - 1/10) = 20 ∧
    (vtt_cues 5 5 c).length = 5 ∧
    (∀ i : ℕ, ∀ h : i < (vtt_cues 5 5 c).length,
      ((vtt_cues 5 5 c).get ⟨i, h⟩).x = i * THUMB_WIDTH ∧
      ((vtt_cues 5 5 c).get ⟨i, h⟩).y = 0) := by
  refine ⟨requested_timestamps_23_5, by norm_num [min_def], by simp [vtt_cues], ?_⟩
  intro i h
  have hi5 : i < 5 := by simpa [vtt_cues] using h
  constructor <;> simp only [vtt_cues, List.get_map, List.get_range]
  · rw [Nat.mod_eq_of_lt (lt_of_lt_of_le hi5 hc)]
  · rw [Nat.div_eq_of_lt (lt_of_lt_of_le hi5 hc), zero_mul]

/-- C9 amended witness: instantiation at the configured column count
`c = 10`. -/
theorem C9_amended_23s_pipeline_witness :
    requested_timestamps 23 5 = [0, 5, 10, 15, 20] ∧
    min ((4 : ℚ) * 5) (23 - 1/10) = 20 ∧
    (vtt_cues 5 5 10).length = 5 ∧
    (∀ i : ℕ, ∀ h : i < (vtt_cues 5 5 10).length,
      ((vtt_cues 5 5 10).get ⟨i, h⟩).x = i * THUMB_WIDTH ∧
      ((vtt_cues 5 5 10).get ⟨i, h⟩).y = 0) :=
  C9_amended_23s_pipeline 10 (by norm_num)

/-- C10: for a duration `0 < d < 0.1` the sampler requests exactly one
frame, whose clamped timestamp `min(0, d - 0.1) = d - 0.1` is strictly
negative; the hours component of the seek string computed for it is
`-1`, so the produced seek string is not a valid zero-padded
`HH:MM:SS.mmm` timestamp. -/
theorem C10_negative_seek (d : ℚ) (h0 : 0 < d) (h1 : d < 1/10) :
    requested_timestamps d THUMBNAIL_INTERVAL = [d - 1/10] ∧
    d - 1/10 < 0 ∧
    seek_hours (d - 1/10) = -1 ∧
    isHHMMSSmmm (seek_str (d - 1/10)) = false := by
  have hneg : d - 1/10 < 0 := by linarith
  have hhours : seek_hours (d - 1/10) = -1 := by
    have hfl : ⌊(d - 1/10) / 3600⌋ = -1 := by
      rw [Int.floor_eq_iff]
      constructor
      · push_cast
        rw [le_div_iff (by norm_num : (0 : ℚ) < 3600)]
        linarith
      · push_cast
        rw [div_lt_iff (by norm_num : (0 : ℚ) < 3600)]
        linarith
    rw [seek_hours, pyFloorDiv, hfl, pyInt,
      if_pos (by norm_num : ((-1 : ℤ) : ℚ) < 0)]
    exact Int.ceil_intCast (-1)
  refine ⟨?_, hneg, hhours, ?_⟩
  · have hn : (num_thumbnails d THUMBNAIL_INTERVAL).toNat = 1 := by
      rw [num_thumbnails, THUMBNAIL_INTERVAL,
        show ⌈d / 5⌉ = 1 by
          rw [Int.ceil_eq_iff]
          constructor
          · push_cast
            linarith
          · push_cast
            linarith]
      rfl
    rw [requested_timestamps, hn, show List.range 1 = [0] from rfl]
    simp only [List.map_cons, List.map_nil, Nat.cast_zero, zero_mul]
    rw [min_eq_right hneg.le]
  · have hd0 : ∀ xs : List Char, isDigitAt ('-' :: xs) 0 = false := by
      intro xs
      rfl
    rw [seek_str, hhours, show zeroPadInt 2 (-1) = ['-', '1'] from by decide]
    simp only [List.cons_append, List.nil_append]
    simp only [isHHMMSSmmm, hd0, Bool.and_false, Bool.false_and]

/-- C10 witness: instantiation at `d = 1/20`. -/
theorem C10_negative_seek_witness :
    requested_timestamps (1/20) THUMBNAIL_INTERVAL = [1/20 - 1/10] ∧
    (1/20 : ℚ) - 1/10 < 0 ∧
    seek_hours (1/20 - 1/10) = -1 ∧
    isHHMMSSmmm (seek_str (1/20 - 1/10)) = false :=
  C10_negative_seek (1/20) (by norm_num) (by norm_num)

end SpriteGen
